import Mathlib

/-!
Shallow embedding of the ESP32-PersistentStorage runtime configuration
registry (src/src/PersistentStorage.cpp, src/include/PersistentStorage.h).

Modelling conventions:
* `int32_t` is modelled as `Int` together with an explicit wrap into
  `[-2^31, 2^31)` where the code performs a C cast (`toInt32`);
* `float` is modelled as exact rationals (`Rat`); IEEE rounding and NaN
  are outside the scope of this embedding;
* C strings that the code manipulates as `std::string` are modelled as
  Lean `String` (registry side) or `List Char` (MQTT topic decoding,
  where byte-level truncation matters);
* the NVS persistence adapter (`Preferences`) is modelled as a typed
  key/value association list; its `put` operations are modelled as
  succeeding, matching the external-collaborator contract;
* the FreeRTOS command queue is a bounded list (capacity 5), and the
  publish mutex / MQTT connectivity are explicit boolean inputs
  (`mutexOk`, `connected`, ...) of the functions that consult them.
-/

namespace PersistentStorage

/-- Source: `PersistentStorage::Result` (PersistentStorage.h, lines 64-73). -/
inductive Result where
  | SUCCESS
  | ERROR_NOT_FOUND
  | ERROR_TYPE_MISMATCH
  | ERROR_ACCESS_DENIED
  | ERROR_VALIDATION_FAILED
  | ERROR_NVS_FAIL
  | ERROR_INVALID_NAME
  | ERROR_TOO_LARGE
deriving DecidableEq

/-- Source: `ParameterInfo::Access` (PersistentStorage.h, lines 32-35). -/
inductive Access where
  | ACCESS_READ_ONLY
  | ACCESS_READ_WRITE
deriving DecidableEq

/-- Source: `ParameterInfo::Type` (PersistentStorage.h, lines 24-30). -/
inductive PType where
  | TYPE_BOOL
  | TYPE_INT
  | TYPE_FLOAT
  | TYPE_STRING
  | TYPE_BLOB
deriving DecidableEq

/-- The contents of the caller-owned memory a descriptor points at
(the target of `ParameterInfo::dataPtr`). -/
inductive PValue where
  | vBool (b : Bool)
  | vInt (n : Int)
  | vFloat (q : Rat)
  | vStr (s : String)
  | vBlob (bytes : List Nat)
deriving DecidableEq

/-- Wrap an integer into the `int32_t` range, as a C cast does. -/
def toInt32 (n : Int) : Int := (n + 2 ^ 31) % 2 ^ 32 - 2 ^ 31

/-- A JSON value as far as this library inspects one: the `doc["value"]`
field handed to `jsonToParameter`.  `jNull` stands for both an absent
key and an explicit JSON null (`doc["value"].isNull()`). -/
inductive JValue where
  | jNull
  | jBool (b : Bool)
  | jInt (n : Int)
  | jFloat (q : Rat)
  | jStr (s : String)
deriving DecidableEq

/-- ArduinoJson `as<bool>()` on the payload value. -/
def asBool : JValue → Bool
  | JValue.jBool b => b
  | JValue.jInt n => decide (n ≠ 0)
  | JValue.jFloat q => decide (q ≠ 0)
  | _ => false

/-- ArduinoJson `as<int32_t>()` on the payload value (numeric payloads;
a float is truncated toward zero and wrapped as the C cast does). -/
def asInt32 : JValue → Int
  | JValue.jInt n => toInt32 n
  | JValue.jFloat q => toInt32 (if 0 ≤ q then Int.floor q else Int.ceil q)
  | JValue.jBool b => if b then 1 else 0
  | _ => 0

/-- ArduinoJson `as<float>()` on the payload value. -/
def asFloat : JValue → Rat
  | JValue.jFloat q => q
  | JValue.jInt n => (n : Rat)
  | JValue.jBool b => if b then 1 else 0
  | _ => 0

/-- ArduinoJson `as<const char*>()`: `none` models a null pointer. -/
def asCStr : JValue → Option String
  | JValue.jStr s => some s
  | _ => none

/-- Source: `ParameterInfo` (PersistentStorage.h, lines 23-54).  The anonymous
constraints union is flattened into separate fields; only the fields
matching the descriptor's type tag are ever read, exactly as for the
union in the source. -/
structure ParameterInfo where
  name : String
  description : String
  type : PType
  access : Access
  /-- contents of the caller memory behind `dataPtr` -/
  value : PValue
  size : Nat
  intMin : Int
  intMax : Int
  floatMin : Rat
  floatMax : Rat
  maxLen : Nat
  validator : Option (PValue → Bool)

/-- Source: `std::map<std::string, ParameterInfo>`: a key-sorted association
list with unique keys. -/
def Registry := List (String × ParameterInfo)

/-- Source: `parameters_.find(name)` -/
def findParam : Registry → String → Option ParameterInfo
  | [], _ => none
  | kv :: rest, name => if kv.1 = name then some kv.2 else findParam rest name

/-- Source: `parameters_[name] = info` (insert-or-assign, keeping key order). -/
def mapInsert : Registry → String → ParameterInfo → Registry
  | [], name, info => [(name, info)]
  | kv :: rest, name, info =>
      if name < kv.1 then (name, info) :: kv :: rest
      else if name = kv.1 then (name, info) :: rest
      else kv :: mapInsert rest name info

/-- In-place mutation of `it->second` through the iterator returned by
`find` (replaces the mapped value of the first matching key). -/
def regUpdate : Registry → String → ParameterInfo → Registry
  | [], _, _ => []
  | kv :: rest, name, p =>
      if kv.1 = name then (name, p) :: rest else kv :: regUpdate rest name p

/-- The NVS namespace contents: sanitized key to typed stored value. -/
def NvsStore := List (String × PValue)

def nvsLookup (store : NvsStore) (key : String) : Option PValue :=
  (store.find? (fun kv => kv.1 == key)).map (fun kv => kv.2)

/-- Source: `preferences_.getBool(key, default)` -/
def nvsGetBool (store : NvsStore) (key : String) (dflt : Bool) : Bool :=
  match nvsLookup store key with
  | some (PValue.vBool b) => b
  | _ => dflt

/-- Source: `preferences_.getInt(key, default)` -/
def nvsGetInt (store : NvsStore) (key : String) (dflt : Int) : Int :=
  match nvsLookup store key with
  | some (PValue.vInt n) => n
  | _ => dflt

/-- Source: `preferences_.getFloat(key, default)` -/
def nvsGetFloat (store : NvsStore) (key : String) (dflt : Rat) : Rat :=
  match nvsLookup store key with
  | some (PValue.vFloat q) => q
  | _ => dflt

/-- Source: `preferences_.getString(key, buf, size)`: the buffer keeps its
previous contents when the key is absent. -/
def nvsGetString (store : NvsStore) (key : String) (dflt : String) : String :=
  match nvsLookup store key with
  | some (PValue.vStr s) => s
  | _ => dflt

/-- Source: `preferences_.getBytesLength(key)` -/
def nvsGetBytesLength (store : NvsStore) (key : String) : Nat :=
  match nvsLookup store key with
  | some (PValue.vBlob l) => l.length
  | _ => 0

/-- Source: `preferences_.getBytes(key, buf, size)` -/
def nvsGetBytes (store : NvsStore) (key : String) (dflt : List Nat) : List Nat :=
  match nvsLookup store key with
  | some (PValue.vBlob l) => l
  | _ => dflt

/-- Source: `preferences_.putX(key, v)` (insert-or-assign). -/
def nvsPut : NvsStore → String → PValue → NvsStore
  | [], key, v => [(key, v)]
  | kv :: rest, key, v =>
      if kv.1 = key then (key, v) :: rest else kv :: nvsPut rest key v

/-- Typed read accessors for the caller memory behind `dataPtr`.
Registration keeps the type tag and the value constructor in sync, so
the fallback arms are never reached in well-formed states. -/
def getBoolVal (p : ParameterInfo) : Bool :=
  match p.value with | PValue.vBool b => b | _ => false

def getIntVal (p : ParameterInfo) : Int :=
  match p.value with | PValue.vInt n => n | _ => 0

def getFloatVal (p : ParameterInfo) : Rat :=
  match p.value with | PValue.vFloat q => q | _ => 0

def getStrVal (p : ParameterInfo) : String :=
  match p.value with | PValue.vStr s => s | _ => ""

def getBlobVal (p : ParameterInfo) : List Nat :=
  match p.value with | PValue.vBlob l => l | _ => []

/-- Source: `PersistentStorage::validateParameterName`
(PersistentStorage.cpp, lines 566-579). -/
def validateParameterName (name : String) : Bool :=
  if name = "" ∨ 64 < name.length then false
  else name.data.all fun c => c.isAlphanum || c == '_' || c == '/'

/-- Source: `PersistentStorage::sanitizeNvsKey`
(PersistentStorage.cpp, lines 581-596).  The hash accumulator is a
`uint32_t`, hence the wrap at every step. -/
def sanitizeNvsKey (name : String) : String :=
  if name.length ≤ 15 then name
  else
    "p" ++ toString (name.data.foldl (fun h c => (h * 31 + c.toNat) % 2 ^ 32) 0)

/-- The persistent state of one `PersistentStorage` instance: the
`initialized_` flag, the `parameters_` map and the NVS namespace
contents behind `preferences_`. -/
structure StorageState where
  initialized : Bool
  parameters : Registry
  store : NvsStore

/-- Source: `PersistentStorage::loadParameter` (PersistentStorage.cpp, lines
598-635).  Note that every arm returns `Result::SUCCESS`, whether or
not the key was present in NVS. -/
def loadParameter (store : NvsStore) (p : ParameterInfo) : Result × ParameterInfo :=
  let key := sanitizeNvsKey p.name
  let p' :=
    match p.type with
    | PType.TYPE_BOOL => { p with value := PValue.vBool (nvsGetBool store key (getBoolVal p)) }
    | PType.TYPE_INT => { p with value := PValue.vInt (nvsGetInt store key (getIntVal p)) }
    | PType.TYPE_FLOAT => { p with value := PValue.vFloat (nvsGetFloat store key (getFloatVal p)) }
    | PType.TYPE_STRING => { p with value := PValue.vStr (nvsGetString store key (getStrVal p)) }
    | PType.TYPE_BLOB =>
        let len := nvsGetBytesLength store key
        if 0 < len ∧ len ≤ p.size then
          { p with value := PValue.vBlob (nvsGetBytes store key (getBlobVal p)) }
        else p
  (Result.SUCCESS, p')

/-- Source: `PersistentStorage::saveParameter` (PersistentStorage.cpp, lines
637-664).  The persistence adapter's `put` operations are modelled as
succeeding (external collaborator, spec section 6). -/
def saveParameter (store : NvsStore) (p : ParameterInfo) : Result × NvsStore :=
  let key := sanitizeNvsKey p.name
  match p.type with
  | PType.TYPE_BOOL => (Result.SUCCESS, nvsPut store key (PValue.vBool (getBoolVal p)))
  | PType.TYPE_INT => (Result.SUCCESS, nvsPut store key (PValue.vInt (getIntVal p)))
  | PType.TYPE_FLOAT => (Result.SUCCESS, nvsPut store key (PValue.vFloat (getFloatVal p)))
  | PType.TYPE_STRING => (Result.SUCCESS, nvsPut store key (PValue.vStr (getStrVal p)))
  | PType.TYPE_BLOB => (Result.SUCCESS, nvsPut store key (PValue.vBlob (getBlobVal p)))

/-- The `for (auto& pair : parameters_)` loop of `saveAll`. -/
def saveAllGo (store : NvsStore) : Registry → NvsStore
  | [] => store
  | kv :: rest => saveAllGo (saveParameter store kv.2).2 rest

/-- Source: `PersistentStorage::saveAll` (PersistentStorage.cpp, lines 357-378). -/
def saveAll (s : StorageState) : Result × StorageState :=
  if s.initialized = false then (Result.ERROR_NVS_FAIL, s)
  else (Result.SUCCESS, { s with store := saveAllGo s.store s.parameters })

/-- The `for (auto& pair : parameters_)` loop of `loadAll`: threads the
`loadedCount` and `lastResult` accumulators and rebuilds the registry
with each loaded descriptor (`loadParameter` mutates `pair.second`). -/
def loadAllGo (store : NvsStore) : Registry → Nat → Result → Registry × Nat × Result
  | [], count, last => ([], count, last)
  | kv :: rest, count, last =>
      let rp := loadParameter store kv.2
      let acc := if rp.1 = Result.SUCCESS then (count + 1, last) else (count, rp.1)
      let tail := loadAllGo store rest acc.1 acc.2
      ((kv.1, rp.2) :: tail.1, tail.2)

/-- Source: `PersistentStorage::loadAll` (PersistentStorage.cpp, lines 395-422). -/
def loadAll (s : StorageState) (autoSaveDefaults : Bool) : Result × StorageState :=
  if s.initialized = false then (Result.ERROR_NVS_FAIL, s)
  else
    let r := loadAllGo s.store s.parameters 0 Result.SUCCESS
    let s' : StorageState := { s with parameters := r.1 }
    if autoSaveDefaults && r.2.1 == 0 && !r.1.isEmpty then
      (Result.SUCCESS, (saveAll s').2)
    else (r.2.2, s')

/-- Source: `PersistentStorage::load` (PersistentStorage.cpp, lines 381-392). -/
def load (s : StorageState) (name : String) : Result × StorageState :=
  if s.initialized = false then (Result.ERROR_NVS_FAIL, s)
  else
    match findParam s.parameters name with
    | none => (Result.ERROR_NOT_FOUND, s)
    | some p =>
        let rp := loadParameter s.store p
        (rp.1, { s with parameters := regUpdate s.parameters name rp.2 })

/-- Source: `PersistentStorage::registerBool` (PersistentStorage.cpp, lines
92-119). `dataVal` is the current contents of the caller memory handed
over as `dataPtr`. -/
def registerBool (s : StorageState) (name : String) (dataVal : Bool)
    (description : String) (access : Access) : Result × StorageState :=
  if validateParameterName name = false then (Result.ERROR_INVALID_NAME, s)
  else
    let info : ParameterInfo :=
      { name := name, description := description, type := PType.TYPE_BOOL,
        access := access, value := PValue.vBool dataVal, size := 1,
        intMin := 0, intMax := 0, floatMin := 0, floatMax := 0, maxLen := 0,
        validator := none }
    let s' : StorageState := { s with parameters := mapInsert s.parameters name info }
    (Result.SUCCESS, if s'.initialized then (load s' name).2 else s')

/-- Source: `PersistentStorage::registerInt` (PersistentStorage.cpp, lines 122-152). -/
def registerInt (s : StorageState) (name : String) (dataVal : Int)
    (minVal maxVal : Int) (description : String) (access : Access) :
    Result × StorageState :=
  if validateParameterName name = false then (Result.ERROR_INVALID_NAME, s)
  else
    let info : ParameterInfo :=
      { name := name, description := description, type := PType.TYPE_INT,
        access := access, value := PValue.vInt dataVal, size := 4,
        intMin := minVal, intMax := maxVal, floatMin := 0, floatMax := 0,
        maxLen := 0, validator := none }
    let s' : StorageState := { s with parameters := mapInsert s.parameters name info }
    (Result.SUCCESS, if s'.initialized then (load s' name).2 else s')

/-- Source: `PersistentStorage::registerFloat` (PersistentStorage.cpp, lines 155-185). -/
def registerFloat (s : StorageState) (name : String) (dataVal : Rat)
    (minVal maxVal : Rat) (description : String) (access : Access) :
    Result × StorageState :=
  if validateParameterName name = false then (Result.ERROR_INVALID_NAME, s)
  else
    let info : ParameterInfo :=
      { name := name, description := description, type := PType.TYPE_FLOAT,
        access := access, value := PValue.vFloat dataVal, size := 4,
        intMin := 0, intMax := 0, floatMin := minVal, floatMax := maxVal,
        maxLen := 0, validator := none }
    let s' : StorageState := { s with parameters := mapInsert s.parameters name info }
    (Result.SUCCESS, if s'.initialized then (load s' name).2 else s')

/-- Source: `PersistentStorage::registerString` (PersistentStorage.cpp, lines 188-216). -/
def registerString (s : StorageState) (name : String) (dataVal : String)
    (maxLenArg : Nat) (description : String) (access : Access) :
    Result × StorageState :=
  if validateParameterName name = false then (Result.ERROR_INVALID_NAME, s)
  else
    let info : ParameterInfo :=
      { name := name, description := description, type := PType.TYPE_STRING,
        access := access, value := PValue.vStr dataVal, size := maxLenArg,
        intMin := 0, intMax := 0, floatMin := 0, floatMax := 0,
        maxLen := maxLenArg, validator := none }
    let s' : StorageState := { s with parameters := mapInsert s.parameters name info }
    (Result.SUCCESS, if s'.initialized then (load s' name).2 else s')

/-- Source: `PersistentStorage::registerBlob` (PersistentStorage.cpp, lines 219-246). -/
def registerBlob (s : StorageState) (name : String) (dataVal : List Nat)
    (sizeArg : Nat) (description : String) (access : Access) :
    Result × StorageState :=
  if validateParameterName name = false then (Result.ERROR_INVALID_NAME, s)
  else
    let info : ParameterInfo :=
      { name := name, description := description, type := PType.TYPE_BLOB,
        access := access, value := PValue.vBlob dataVal, size := sizeArg,
        intMin := 0, intMax := 0, floatMin := 0, floatMax := 0, maxLen := 0,
        validator := none }
    let s' : StorageState := { s with parameters := mapInsert s.parameters name info }
    (Result.SUCCESS, if s'.initialized then (load s' name).2 else s')

/-- The `if (param.validator && !param.validator(param.dataPtr))` block
at the end of `jsonToParameter` (PersistentStorage.cpp, lines 762-787):
`p.value` already holds the candidate; `old` is the saved previous
value restored on rejection. -/
def runValidator (p : ParameterInfo) (old : PValue) : Result × ParameterInfo :=
  match p.validator with
  | none => (Result.SUCCESS, p)
  | some f =>
      if f p.value then (Result.SUCCESS, p)
      else (Result.ERROR_VALIDATION_FAILED, { p with value := old })

/-- Source: `PersistentStorage::jsonToParameter` (PersistentStorage.cpp, lines
708-788).  `jv` is `doc["value"]`; `jNull` covers both a missing key
and JSON null.  `TYPE_BLOB` falls into the `default:` arm of the
switch. -/
def jsonToParameter (p : ParameterInfo) (jv : JValue) : Result × ParameterInfo :=
  if jv = JValue.jNull then (Result.ERROR_VALIDATION_FAILED, p)
  else
    match p.type with
    | PType.TYPE_BOOL =>
        runValidator { p with value := PValue.vBool (asBool jv) } p.value
    | PType.TYPE_INT =>
        let newVal := asInt32 jv
        if newVal < p.intMin ∨ p.intMax < newVal then
          (Result.ERROR_VALIDATION_FAILED, p)
        else runValidator { p with value := PValue.vInt newVal } p.value
    | PType.TYPE_FLOAT =>
        let newVal := asFloat jv
        if newVal < p.floatMin ∨ p.floatMax < newVal then
          (Result.ERROR_VALIDATION_FAILED, p)
        else runValidator { p with value := PValue.vFloat newVal } p.value
    | PType.TYPE_STRING =>
        match asCStr jv with
        | none => (Result.ERROR_VALIDATION_FAILED, p)
        | some str =>
            if p.maxLen ≤ str.length then (Result.ERROR_VALIDATION_FAILED, p)
            else runValidator { p with value := PValue.vStr str } p.value
    | PType.TYPE_BLOB => (Result.ERROR_TYPE_MISMATCH, p)

/-- Source: `PersistentStorage::setJson` (PersistentStorage.cpp, lines 436-461).
On success the new value is also written through `saveParameter`; the
`onChange` notification and MQTT publish are value-irrelevant side
effects outside this state. -/
def setJson (s : StorageState) (name : String) (jv : JValue) : Result × StorageState :=
  match findParam s.parameters name with
  | none => (Result.ERROR_NOT_FOUND, s)
  | some p =>
      if p.access = Access.ACCESS_READ_ONLY then (Result.ERROR_ACCESS_DENIED, s)
      else
        let rp := jsonToParameter p jv
        if rp.1 = Result.SUCCESS then
          (Result.SUCCESS,
            { s with parameters := regUpdate s.parameters name rp.2,
                     store := (saveParameter s.store rp.2).2 })
        else (rp.1, { s with parameters := regUpdate s.parameters name rp.2 })

/-- Source: `ParameterCommand::Type` (PersistentStorage.h, line 293). -/
inductive CmdType where
  | GET
  | SET
  | LIST
  | SAVE
  | GET_ALL
deriving DecidableEq

/-- Source: `ParameterCommand` (PersistentStorage.h, lines 292-297).  The
`char paramName[48]` and `char payload[64]` buffers are modelled by the
character lists that end up stored in them (the struct is zeroed with
`memset` first, so both are NUL-terminated C strings). -/
structure ParameterCommand where
  type : CmdType
  paramName : List Char
  payload : List Char
deriving DecidableEq

/-- Source: `COMMAND_QUEUE_SIZE` (PersistentStorage.h, line 300). -/
def COMMAND_QUEUE_SIZE : Nat := 5

/-- Source: `PARAMS_PER_CHUNK` (PersistentStorage.h, line 301). -/
def PARAMS_PER_CHUNK : Nat := 5

/-- Source: `std::string::substr(pos)`: `none` models the `std::out_of_range`
exception thrown when `pos > size()`. -/
def cppSubstr (s : List Char) (pos : Nat) : Option (List Char) :=
  if pos ≤ s.length then some (s.drop pos) else none

/-- Outcome of the topic-decoding part of `handleMqttCommand`. -/
inductive DecodeOutcome where
  /-- Source: `topic.substr(mqttPrefix_.length() + 1)` threw `std::out_of_range` -/
  | crash
  /-- the function returns `false` (foreign topic or unknown command) -/
  | notOurs
  /-- a recognized command, as built into the local `cmd` -/
  | cmd (c : ParameterCommand)
deriving DecidableEq

/-- The decode half of `PersistentStorage::handleMqttCommand`
(PersistentStorage.cpp, lines 511-551): prefix check, sub-topic
extraction at offset `mqttPrefix_.length() + 1`, classification, and
the `strncpy` copies into the fixed `char[48]`/`char[64]` buffers
(at most 47 name characters and 63 payload bytes are kept). -/
def decodeMqttCommand (pfx topic payload : List Char) : DecodeOutcome :=
  if pfx.isPrefixOf topic = false then DecodeOutcome.notOurs
  else
    match cppSubstr topic (pfx.length + 1) with
    | none => DecodeOutcome.crash
    | some subTopic =>
        if ("set/".data).isPrefixOf subTopic then
          DecodeOutcome.cmd ⟨CmdType.SET, (subTopic.drop 4).take 47, payload.take 63⟩
        else if subTopic = "get/all".data then
          DecodeOutcome.cmd ⟨CmdType.GET_ALL, "all".data, []⟩
        else if ("get/".data).isPrefixOf subTopic then
          DecodeOutcome.cmd ⟨CmdType.GET, (subTopic.drop 4).take 47, []⟩
        else if subTopic = "list".data then
          DecodeOutcome.cmd ⟨CmdType.LIST, [], []⟩
        else if subTopic = "save".data then
          DecodeOutcome.cmd ⟨CmdType.SAVE, [], []⟩
        else DecodeOutcome.notOurs

/-- Source: `PersistentStorage::handleMqttCommand` (PersistentStorage.cpp,
lines 511-562): decode, then `xQueueSend(commandQueue_, &cmd, 0)` into
the bounded queue — a full queue drops the command and the function
still returns `true`.  `none` propagates the out-of-range crash of the
sub-topic extraction. -/
def handleMqttCommand (pfx topic payload : List Char)
    (queue : List ParameterCommand) : Option (Bool × List ParameterCommand) :=
  match decodeMqttCommand pfx topic payload with
  | DecodeOutcome.crash => none
  | DecodeOutcome.notOurs => some (false, queue)
  | DecodeOutcome.cmd c =>
      if queue.length < COMMAND_QUEUE_SIZE then some (true, queue ++ [c])
      else some (true, queue)

/-- The shared async-publish progress triple `isPublishing_`,
`nextParamIndex_`, `totalParams_` (PersistentStorage.h, lines 320-322). -/
structure PublishState where
  isPublishing : Bool
  nextParamIndex : Nat
  totalParams : Nat
deriving DecidableEq

/-- The idle configuration: exactly what the constructor and every
reset site write (`false`, `0`, `0`). -/
def idleState : PublishState := ⟨false, 0, 0⟩

/-- Source: `PersistentStorage::publishAllAsync` (PersistentStorage.cpp, lines
1015-1092).  `hasCallback`/`hasManager`/`connected` mirror
`mqttPublishCallback_`, `mqttManager_` and `isConnected()`; `mutexOk`
is the bounded `xSemaphoreTake` succeeding, `summaryOk` the summary
publish succeeding.  The second component records whether a summary
message was attempted. -/
def publishAllAsync (hasCallback hasManager connected mutexOk summaryOk : Bool)
    (paramCount : Nat) (st : PublishState) : PublishState × Bool :=
  if hasCallback = false ∧ hasManager = false then (st, false)
  else if hasCallback = false ∧ connected = false then (st, false)
  else if mutexOk = false then (st, false)
  else if st.isPublishing then (st, false)
  else if paramCount = 0 then (st, false)
  else if summaryOk then (⟨true, 0, paramCount⟩, true)
  else (idleState, true)

/-- Source: `PersistentStorage::continueAsyncPublish` (PersistentStorage.cpp,
lines 1094-1207).  `midDisconnect` models a `CONNECTION_FAILED` publish
error inside the batch loop (only possible on the direct-manager path);
the cursor is advanced by the batch size before the mutex is released. -/
def continueAsyncPublish (hasCallback hasManager connected mutexOk midDisconnect : Bool)
    (st : PublishState) : PublishState :=
  if mutexOk = false then st
  else if st.isPublishing = false then st
  else if hasCallback = false ∧ hasManager = false then st
  else if hasCallback = false ∧ connected = false then idleState
  else if st.totalParams ≤ st.nextParamIndex then idleState
  else
    let batch := min PARAMS_PER_CHUNK (st.totalParams - st.nextParamIndex)
    let st' : PublishState := ⟨true, st.nextParamIndex + batch, st.totalParams⟩
    if hasCallback = false ∧ midDisconnect then idleState else st'

/-! ## Supporting lemmas -/

/-- Folding the 32-bit-wrapped hash step equals wrapping the exact
polynomial hash once at the end. -/
theorem foldl_hash_mod (l : List Char) (h : Nat) :
    l.foldl (fun a c => (a * 31 + c.toNat) % 2 ^ 32) (h % 2 ^ 32) =
      (l.foldl (fun a c => a * 31 + c.toNat) h) % 2 ^ 32 := by
  induction l generalizing h with
  | nil => simp
  | cons c rest ih =>
      simp only [List.foldl_cons]
      rw [show (h % 2 ^ 32 * 31 + c.toNat) % 2 ^ 32 = (h * 31 + c.toNat) % 2 ^ 32 from
        ((Nat.mod_modEq h (2 ^ 32)).mul_right 31).add_right c.toNat]
      exact ih (h * 31 + c.toNat)

/-! ## C4 -/

/-- C4: `sanitizeNvsKey` is a pure function (hence deterministic); a
name of at most 15 characters is used verbatim, and a longer name maps
to `"p"` followed by the decimal rendering of the 32-bit polynomial
hash `hash = hash * 31 + byte` computed left-to-right over the name's
bytes starting from 0. -/
theorem c4_sanitizeNvsKey_spec (name : String) :
    (name.length ≤ 15 → sanitizeNvsKey name = name) ∧
    (15 < name.length →
      sanitizeNvsKey name =
        "p" ++ toString ((name.data.foldl (fun h c => h * 31 + c.toNat) 0) % 2 ^ 32)) := by
  constructor
  · intro h
    simp [sanitizeNvsKey, h]
  · intro h
    have h' : ¬ name.length ≤ 15 := by omega
    simp only [sanitizeNvsKey, if_neg h']
    have h0 : (0 : Nat) = 0 % 2 ^ 32 := rfl
    conv_lhs => rw [h0, foldl_hash_mod]

/-- Witness for C4 at a short and a 39-character name. -/
theorem c4_sanitizeNvsKey_spec_witness :
    sanitizeNvsKey "pid/kp" = "pid/kp" ∧
    sanitizeNvsKey "heating/controller/temperature/target_1" =
      "p" ++ toString ((("heating/controller/temperature/target_1").data.foldl
        (fun h c => h * 31 + c.toNat) 0) % 2 ^ 32) :=
  ⟨(c4_sanitizeNvsKey_spec "pid/kp").1 (by decide),
   (c4_sanitizeNvsKey_spec "heating/controller/temperature/target_1").2 (by decide)⟩

/-! ## C5 -/

/-- C5: for every recognized command topic, when the bounded command
queue (capacity `COMMAND_QUEUE_SIZE = 5`) is full, the decoded command
is dropped — the queue is returned unchanged — and `handleMqttCommand`
still reports the topic as handled (`true`). -/
theorem c5_full_queue_drops_command (pfx topic payload : List Char)
    (q : List ParameterCommand) (c : ParameterCommand)
    (hq : q.length = COMMAND_QUEUE_SIZE)
    (hc : decodeMqttCommand pfx topic payload = DecodeOutcome.cmd c) :
    handleMqttCommand pfx topic payload q = some (true, q) := by
  simp [handleMqttCommand, hc, hq]

def c5fullQueue : List ParameterCommand :=
  List.replicate 5 ⟨CmdType.SAVE, [], []⟩

/-- Witness for C5: a `save` topic against a full queue. -/
theorem c5_full_queue_drops_command_witness :
    handleMqttCommand ("esplan/params".data) ("esplan/params/save".data) []
      c5fullQueue = some (true, c5fullQueue) :=
  c5_full_queue_drops_command ("esplan/params".data) ("esplan/params/save".data) []
    c5fullQueue ⟨CmdType.SAVE, [], []⟩ (by decide) (by decide)

/-! ## C9 -/

/-- C9: a topic exactly equal to the configured prefix passes the
prefix check (`topic.find(mqttPrefix_) == 0`) but the subsequent
`topic.substr(mqttPrefix_.length() + 1)` is out of range
(`pos > size()`), modelled as `DecodeOutcome.crash` — the claim that
the extraction stays within bounds fails on this input. -/
theorem c9_topic_equal_to_pfx_is_out_of_range (pfx payload : List Char) :
    decodeMqttCommand pfx pfx payload = DecodeOutcome.crash := by
  have h1 : pfx.isPrefixOf pfx = true := by
    simp [ List.isPrefixOf_iff_prefix]
  have h2 : cppSubstr pfx (pfx.length + 1) = none := by
    unfold cppSubstr
    rw [if_neg (by omega)]
  simp [decodeMqttCommand, h1, h2]

/-! ## C10 -/

/-- C10: a `set` topic is decoded by copying at most 47 characters of
the parameter name and 63 bytes of the payload into the queued
command's fixed buffers; a registered name of 48 to 64 characters is
therefore truncated, so the queued command addresses a different name
than the registered one. -/
theorem c10_set_command_truncates_name (pfx name payload : List Char)
    (hlen : 48 ≤ name.length) :
    decodeMqttCommand pfx (pfx ++ "/set/".data ++ name) payload =
      DecodeOutcome.cmd ⟨CmdType.SET, name.take 47, payload.take 63⟩ ∧
    name.take 47 ≠ name := by
  constructor
  · have hassoc : pfx ++ "/set/".data ++ name = pfx ++ ("/set/".data ++ name) :=
      List.append_assoc pfx _ name
    have hpre : pfx.isPrefixOf (pfx ++ "/set/".data ++ name) = true := by
      rw [hassoc]
      exact List.isPrefixOf_iff_prefix.mpr (List.prefix_append pfx _)
    have hlen2 : pfx.length + 1 ≤ (pfx ++ "/set/".data ++ name).length := by
      simp [List.length_append]
    have hdrop : (pfx ++ "/set/".data ++ name).drop (pfx.length + 1) =
        "set/".data ++ name := by
      rw [hassoc]
      have : ("/set/".data : List Char) ++ name = '/' :: ("set/".data ++ name) := rfl
      rw [this, List.drop_append 1]
      rfl
    have hsub : cppSubstr (pfx ++ "/set/".data ++ name) (pfx.length + 1) =
        some ("set/".data ++ name) := by
      unfold cppSubstr
      rw [if_pos hlen2, hdrop]
    have hset : ("set/".data : List Char).isPrefixOf ("set/".data ++ name) = true :=
      List.isPrefixOf_iff_prefix.mpr (List.prefix_append _ name)
    simp only [decodeMqttCommand, hpre, hsub, hset, if_true]
    rfl
  · intro heq
    have h1 : (name.take 47).length = 47 := by
      rw [List.length_take]
      omega
    rw [heq] at h1
    omega

/-- Witness for C10 with a 48-character name. -/
theorem c10_set_command_truncates_name_witness :
    decodeMqttCommand ("esplan/params".data)
        ("esplan/params".data ++ "/set/".data ++ List.replicate 48 'a')
        ("42".data) =
      DecodeOutcome.cmd
        ⟨CmdType.SET, (List.replicate 48 'a').take 47, ("42".data).take 63⟩ ∧
    (List.replicate 48 'a').take 47 ≠ List.replicate 48 'a' :=
  c10_set_command_truncates_name ("esplan/params".data) (List.replicate 48 'a')
    ("42".data) (by decide)

/-! ## C3 -/

/-- C3: the async publisher state machine: (1) starting a publish on an
empty registry from Idle is a no-op with no summary message; (2)
starting while a publish is in progress leaves the state — in
particular the cursor `nextParamIndex` and `totalParams` — unchanged;
(3) stepping while Publishing with cursor ≥ total resets the state to
Idle (given the mutex is acquired and a publish path — callback or a
connected manager — exists); (4) any step on a non-publishing state is
a no-op. -/
theorem c3_async_publisher_state_machine :
    (∀ hc hm c mk so, publishAllAsync hc hm c mk so 0 idleState = (idleState, false)) ∧
    (∀ hc hm c mk so n st, st.isPublishing = true →
      publishAllAsync hc hm c mk so n st = (st, false)) ∧
    (∀ hc hm c md st, st.isPublishing = true →
      st.totalParams ≤ st.nextParamIndex →
      (hc = true ∨ hm = true ∧ c = true) →
      continueAsyncPublish hc hm c true md st = idleState) ∧
    (∀ hc hm c mk md st, st.isPublishing = false →
      continueAsyncPublish hc hm c mk md st = st) := by
  refine ⟨?_, ?_, ?_, ?_⟩
  · intro hc hm c mk so
    cases hc <;> cases hm <;> cases c <;> cases mk <;> cases so <;>
      simp [publishAllAsync, idleState]
  · intro hc hm c mk so n st h
    cases hc <;> cases hm <;> cases c <;> cases mk <;> cases so <;>
      simp [publishAllAsync, h]
  · intro hc hm c md st h1 h2 h3
    rcases h3 with h3 | ⟨h3, h4⟩ <;> cases hc <;> cases hm <;> cases c <;> cases md <;>
      simp_all [continueAsyncPublish]
  · intro hc hm c mk md st h
    cases hc <;> cases hm <;> cases c <;> cases mk <;> cases md <;>
      simp [continueAsyncPublish, h]

/-- Witness for C3: empty-registry start, re-entrant start, and a
completed-cursor step at concrete states. -/
theorem c3_async_publisher_state_machine_witness :
    publishAllAsync true true true true true 0 idleState = (idleState, false) ∧
    publishAllAsync true true true true true 7 ⟨true, 3, 7⟩ = (⟨true, 3, 7⟩, false) ∧
    continueAsyncPublish true true true true false ⟨true, 7, 7⟩ = idleState ∧
    continueAsyncPublish true true true true false idleState = idleState :=
  ⟨c3_async_publisher_state_machine.1 true true true true true,
   c3_async_publisher_state_machine.2.1 true true true true true 7 ⟨true, 3, 7⟩ rfl,
   c3_async_publisher_state_machine.2.2.1 true true true false ⟨true, 7, 7⟩ rfl
     (by decide) (Or.inl rfl),
   c3_async_publisher_state_machine.2.2.2 true true true true false idleState rfl⟩

/-- Writing back the descriptor that `find` returned leaves the
registry unchanged (the in-place `it->second` mutation with an
unmodified value). -/
theorem regUpdate_self (reg : Registry) (name : String) (p : ParameterInfo)
    (hp : findParam reg name = some p) : regUpdate reg name p = reg := by
  induction reg with
  | nil => simp [findParam] at hp
  | cons kv rest ih =>
      by_cases h : kv.1 = name
      · simp only [findParam, if_pos h, Option.some.injEq] at hp
        subst hp
        subst h
        simp [regUpdate]
      · simp only [findParam, if_neg h] at hp
        simp [regUpdate, h, ih hp]

/-! ## C6 -/

/-- C6: `setJson` on a registered ReadOnly parameter returns
`ERROR_ACCESS_DENIED` for every payload, before any value conversion,
and leaves the whole storage state — in particular the parameter's
caller memory — unchanged. -/
theorem c6_readonly_set_denied (s : StorageState) (name : String) (jv : JValue)
    (p : ParameterInfo) (hp : findParam s.parameters name = some p)
    (hro : p.access = Access.ACCESS_READ_ONLY) :
    setJson s name jv = (Result.ERROR_ACCESS_DENIED, s) := by
  simp [setJson, hp, hro]

def c6param : ParameterInfo :=
  { name := "fw/version", description := "firmware version",
    type := PType.TYPE_STRING, access := Access.ACCESS_READ_ONLY,
    value := PValue.vStr "1.0.0", size := 16, intMin := 0, intMax := 0,
    floatMin := 0, floatMax := 0, maxLen := 16, validator := none }

def c6state : StorageState := ⟨true, [("fw/version", c6param)], []⟩

/-- Witness for C6: a read-only string parameter with a payload that
would otherwise be a valid new value. -/
theorem c6_readonly_set_denied_witness :
    setJson c6state "fw/version" (JValue.jStr "2.0.0") =
      (Result.ERROR_ACCESS_DENIED, c6state) :=
  c6_readonly_set_denied c6state "fw/version" (JValue.jStr "2.0.0") c6param rfl rfl

/-! ## C2 -/

/-- The candidate value `jsonToParameter` writes into the caller memory
before consulting the custom validator (per the descriptor's type tag). -/
def candidateValue (p : ParameterInfo) (jv : JValue) : PValue :=
  match p.type with
  | PType.TYPE_BOOL => PValue.vBool (asBool jv)
  | PType.TYPE_INT => PValue.vInt (asInt32 jv)
  | PType.TYPE_FLOAT => PValue.vFloat (asFloat jv)
  | PType.TYPE_STRING => PValue.vStr ((asCStr jv).getD "")
  | PType.TYPE_BLOB => p.value

/-- When the bound validator rejects the candidate, `jsonToParameter`
returns `ERROR_VALIDATION_FAILED` with the descriptor exactly as it
was (previous value restored byte for byte). -/
theorem jsonToParameter_validator_reject (p : ParameterInfo) (jv : JValue)
    (f : PValue → Bool) (hv : p.validator = some f)
    (hb : p.type ≠ PType.TYPE_BLOB)
    (hrej : f (candidateValue p jv) = false) :
    jsonToParameter p jv = (Result.ERROR_VALIDATION_FAILED, p) := by
  by_cases hnull : jv = JValue.jNull
  · simp [jsonToParameter, hnull]
  · obtain ⟨nm, ds, ty, ac, val, sz, imin, imax, fmin, fmax, ml, vald⟩ := p
    simp only at hv hb
    subst hv
    cases ty
    · simp only [candidateValue] at hrej
      simp [jsonToParameter, if_neg hnull, runValidator, hrej]
    · simp only [candidateValue] at hrej
      simp only [jsonToParameter, if_neg hnull]
      split
      · rfl
      · simp [runValidator, hrej]
    · simp only [candidateValue] at hrej
      simp only [jsonToParameter, if_neg hnull]
      split
      · rfl
      · simp [runValidator, hrej]
    · simp only [candidateValue] at hrej
      simp only [jsonToParameter, if_neg hnull]
      cases hstr : asCStr jv
      · rfl
      · rename_i str
        rw [hstr, Option.getD_some] at hrej
        simp only [hstr]
        split
        · rfl
        · simp [runValidator, hrej]
    · exact absurd rfl hb

/-- C2: for a registered read-write parameter with a bound custom
validator, if the validator rejects the candidate value, `setJson`
returns `ERROR_VALIDATION_FAILED` and the storage state is exactly the
pre-call state: the previous value is restored byte for byte and no
partial or new value is observable. -/
theorem c2_validator_reject_restores (s : StorageState) (name : String)
    (jv : JValue) (p : ParameterInfo) (f : PValue → Bool)
    (hp : findParam s.parameters name = some p)
    (hrw : p.access = Access.ACCESS_READ_WRITE)
    (hv : p.validator = some f) (hb : p.type ≠ PType.TYPE_BLOB)
    (hrej : f (candidateValue p jv) = false) :
    setJson s name jv = (Result.ERROR_VALIDATION_FAILED, s) := by
  have hj := jsonToParameter_validator_reject p jv f hv hb hrej
  simp [setJson, hp, hrw, hj, regUpdate_self s.parameters name p hp]

def c2validator : PValue → Bool := fun _ => false

def c2param : ParameterInfo :=
  { name := "pid/kp", description := "", type := PType.TYPE_INT,
    access := Access.ACCESS_READ_WRITE, value := PValue.vInt 1, size := 4,
    intMin := 0, intMax := 10, floatMin := 0, floatMax := 0, maxLen := 0,
    validator := some c2validator }

def c2state : StorageState := ⟨true, [("pid/kp", c2param)], []⟩

/-- Witness for C2: an in-range candidate rejected by the validator. -/
theorem c2_validator_reject_restores_witness :
    setJson c2state "pid/kp" (JValue.jInt 5) =
      (Result.ERROR_VALIDATION_FAILED, c2state) :=
  c2_validator_reject_restores c2state "pid/kp" (JValue.jInt 5) c2param c2validator
    rfl rfl rfl (by decide) rfl

/-! ## C7 -/

/-- An integer already in `int32_t` range is unchanged by the cast. -/
theorem toInt32_eq_self (n : Int) (h1 : -(2 ^ 31) ≤ n) (h2 : n < 2 ^ 31) :
    toInt32 n = n := by
  unfold toInt32
  rw [Int.emod_eq_of_lt (by omega) (by omega)]
  omega

/-- The bound custom validator (if any) accepts the candidate. -/
def validatorAccepts (p : ParameterInfo) (v : PValue) : Prop :=
  match p.validator with
  | none => True
  | some f => f v = true

/-- Characterization of `jsonToParameter` on an integer parameter fed a
JSON integer in `int32_t` range. -/
theorem jsonToParameter_int_spec (p : ParameterInfo) (n : Int)
    (ht : p.type = PType.TYPE_INT) (h1 : -(2 ^ 31) ≤ n) (h2 : n < 2 ^ 31) :
    ((jsonToParameter p (JValue.jInt n)).1 = Result.SUCCESS ↔
      p.intMin ≤ n ∧ n ≤ p.intMax ∧ validatorAccepts p (PValue.vInt n)) ∧
    (n < p.intMin ∨ p.intMax < n →
      jsonToParameter p (JValue.jInt n) = (Result.ERROR_VALIDATION_FAILED, p)) := by
  have hn : asInt32 (JValue.jInt n) = n := toInt32_eq_self n h1 h2
  have hnull : (JValue.jInt n : JValue) ≠ JValue.jNull := by simp
  obtain ⟨nm, ds, ty, ac, val, sz, imin, imax, fmin, fmax, ml, vald⟩ := p
  simp only at ht
  subst ht
  simp only [validatorAccepts]
  constructor
  · simp only [jsonToParameter, if_neg hnull, hn]
    by_cases hout : n < imin ∨ imax < n
    · rw [if_pos hout]
      constructor
      · intro h
        simp at h
      · rintro ⟨ha, hb, -⟩
        exfalso
        omega
    · rw [if_neg hout]
      push_neg at hout
      cases vald with
      | none => simp [runValidator, hout.1, hout.2]
      | some f =>
          by_cases hf : f (PValue.vInt n) = true
          · simp [runValidator, hf, hout.1, hout.2]
          · simp [runValidator, hf]
  · intro hout
    simp only [jsonToParameter, if_neg hnull, hn]
    rw [if_pos hout]

/-- Characterization of `jsonToParameter` on a float parameter fed a
JSON number. -/
theorem jsonToParameter_float_spec (p : ParameterInfo) (q : Rat)
    (ht : p.type = PType.TYPE_FLOAT) :
    ((jsonToParameter p (JValue.jFloat q)).1 = Result.SUCCESS ↔
      p.floatMin ≤ q ∧ q ≤ p.floatMax ∧ validatorAccepts p (PValue.vFloat q)) ∧
    (q < p.floatMin ∨ p.floatMax < q →
      jsonToParameter p (JValue.jFloat q) = (Result.ERROR_VALIDATION_FAILED, p)) := by
  have hnull : (JValue.jFloat q : JValue) ≠ JValue.jNull := by simp
  obtain ⟨nm, ds, ty, ac, val, sz, imin, imax, fmin, fmax, ml, vald⟩ := p
  simp only at ht
  subst ht
  simp only [validatorAccepts]
  constructor
  · simp only [jsonToParameter, if_neg hnull, asFloat]
    by_cases hout : q < fmin ∨ fmax < q
    · rw [if_pos hout]
      constructor
      · intro h
        simp at h
      · rintro ⟨ha, hb, -⟩
        rcases hout with hout | hout
        · exact absurd ha (by exact not_le.mpr hout)
        · exact absurd hb (by exact not_le.mpr hout)
    · rw [if_neg hout]
      push_neg at hout
      cases vald with
      | none => simp [runValidator, hout.1, hout.2]
      | some f =>
          by_cases hf : f (PValue.vFloat q) = true
          · simp [runValidator, hf, hout.1, hout.2]
          · simp [runValidator, hf]
  · intro hout
    simp only [jsonToParameter, if_neg hnull, asFloat]
    rw [if_pos hout]

/-- The result code of `setJson` is that of `jsonToParameter` whenever
the parameter exists and is writable. -/
theorem setJson_fst (s : StorageState) (name : String) (jv : JValue)
    (p : ParameterInfo) (hp : findParam s.parameters name = some p)
    (hrw : p.access ≠ Access.ACCESS_READ_ONLY) :
    (setJson s name jv).1 = (jsonToParameter p jv).1 := by
  simp only [setJson, hp, if_neg hrw]
  split
  · rename_i h
    exact h.symm
  · rfl

/-- A failing `jsonToParameter` that hands back the unchanged
descriptor makes `setJson` fail with the whole state unchanged. -/
theorem setJson_fail_self (s : StorageState) (name : String) (jv : JValue)
    (p : ParameterInfo) (r : Result)
    (hp : findParam s.parameters name = some p)
    (hrw : p.access ≠ Access.ACCESS_READ_ONLY)
    (hj : jsonToParameter p jv = (r, p)) (hr : r ≠ Result.SUCCESS) :
    setJson s name jv = (r, s) := by
  simp [setJson, hp, hrw, hj, hr, regUpdate_self s.parameters name p hp]

/-- C7 (amended): for a registered read-write numeric parameter,
`setJson` succeeds iff the carried value lies within the inclusive
bounds AND the bound custom validator — if any — accepts it; for an
out-of-range value the state is unchanged and
`ERROR_VALIDATION_FAILED` is returned.  (The claim as frozen omits the
validator condition; see the counterexample.) -/
theorem c7_numeric_set_range (s : StorageState) (name : String)
    (p : ParameterInfo) (hp : findParam s.parameters name = some p)
    (hrw : p.access = Access.ACCESS_READ_WRITE) :
    (∀ n : Int, p.type = PType.TYPE_INT → -(2 ^ 31) ≤ n → n < 2 ^ 31 →
      ((setJson s name (JValue.jInt n)).1 = Result.SUCCESS ↔
        p.intMin ≤ n ∧ n ≤ p.intMax ∧ validatorAccepts p (PValue.vInt n)) ∧
      (n < p.intMin ∨ p.intMax < n →
        setJson s name (JValue.jInt n) = (Result.ERROR_VALIDATION_FAILED, s))) ∧
    (∀ q : Rat, p.type = PType.TYPE_FLOAT →
      ((setJson s name (JValue.jFloat q)).1 = Result.SUCCESS ↔
        p.floatMin ≤ q ∧ q ≤ p.floatMax ∧ validatorAccepts p (PValue.vFloat q)) ∧
      (q < p.floatMin ∨ p.floatMax < q →
        setJson s name (JValue.jFloat q) = (Result.ERROR_VALIDATION_FAILED, s))) := by
  have hrw' : p.access ≠ Access.ACCESS_READ_ONLY := by
    rw [hrw]
    intro h
    cases h
  constructor
  · intro n ht h1 h2
    have hspec := jsonToParameter_int_spec p n ht h1 h2
    refine ⟨?_, ?_⟩
    · rw [setJson_fst s name _ p hp hrw']
      exact hspec.1
    · intro hout
      exact setJson_fail_self s name _ p _ hp hrw' (hspec.2 hout) (by decide)
  · intro q ht
    have hspec := jsonToParameter_float_spec p q ht
    refine ⟨?_, ?_⟩
    · rw [setJson_fst s name _ p hp hrw']
      exact hspec.1
    · intro hout
      exact setJson_fail_self s name _ p _ hp hrw' (hspec.2 hout) (by decide)

def c7validator : PValue → Bool := fun _ => false

def c7param : ParameterInfo :=
  { name := "pid/ki", description := "", type := PType.TYPE_INT,
    access := Access.ACCESS_READ_WRITE, value := PValue.vInt 1, size := 4,
    intMin := 0, intMax := 10, floatMin := 0, floatMax := 0, maxLen := 0,
    validator := some c7validator }

def c7state : StorageState := ⟨true, [("pid/ki", c7param)], []⟩

/-- C7 counterexample: on a read-write int parameter with bounds
`[0, 10]` and a bound validator that rejects everything, `setJson`
with the in-range value 5 does NOT succeed — refuting "set succeeds
iff min ≤ value ≤ max" as frozen. -/
theorem c7_in_range_set_can_still_fail :
    c7param.intMin ≤ (5 : Int) ∧ (5 : Int) ≤ c7param.intMax ∧
    (setJson c7state "pid/ki" (JValue.jInt 5)).1 = Result.ERROR_VALIDATION_FAILED := by
  refine ⟨by decide, by decide, ?_⟩
  decide

def c7okParam : ParameterInfo :=
  { name := "temp/target", description := "", type := PType.TYPE_FLOAT,
    access := Access.ACCESS_READ_WRITE, value := PValue.vFloat 22, size := 4,
    intMin := 0, intMax := 0, floatMin := 10, floatMax := 30, maxLen := 0,
    validator := none }

def c7okState : StorageState := ⟨true, [("temp/target", c7okParam)], []⟩

/-- Witness for C7 (amended) at the spec's example parameter: the
out-of-range value 45 on a 10..30 float leaves the state unchanged. -/
theorem c7_numeric_set_range_witness :
    ((setJson c7okState "temp/target" (JValue.jFloat 45)).1 = Result.SUCCESS ↔
      c7okParam.floatMin ≤ (45 : Rat) ∧ (45 : Rat) ≤ c7okParam.floatMax ∧
        validatorAccepts c7okParam (PValue.vFloat 45)) ∧
    setJson c7okState "temp/target" (JValue.jFloat 45) =
      (Result.ERROR_VALIDATION_FAILED, c7okState) := by
  have h := (c7_numeric_set_range c7okState "temp/target" c7okParam rfl rfl).2 45 rfl
  exact ⟨h.1, h.2 (by decide)⟩

/-! ## C8 -/

/-- The claim's wording of a well-formed parameter name: non-empty, at
most 64 characters, every character in `[A-Za-z0-9_/]`. -/
def nameOk (name : String) : Prop :=
  name ≠ "" ∧ name.length ≤ 64 ∧
    ∀ c ∈ name.data,
      ('A' ≤ c ∧ c ≤ 'Z') ∨ ('a' ≤ c ∧ c ≤ 'z') ∨ ('0' ≤ c ∧ c ≤ '9') ∨
        c = '_' ∨ c = '/'

instance (name : String) : Decidable (nameOk name) := by
  unfold nameOk
  infer_instance

/-- The per-character check of `validateParameterName` (`isalnum(c)
|| c == '_' || c == '/'`) is exactly membership in `[A-Za-z0-9_/]`. -/
theorem charOk_iff (c : Char) :
    (c.isAlphanum || c == '_' || c == '/') = true ↔
      ('A' ≤ c ∧ c ≤ 'Z') ∨ ('a' ≤ c ∧ c ≤ 'z') ∨ ('0' ≤ c ∧ c ≤ '9') ∨
        c = '_' ∨ c = '/' := by
  have hA : ('A' : Char).val = 65 := rfl
  have hZ : ('Z' : Char).val = 90 := rfl
  have ha : ('a' : Char).val = 97 := rfl
  have hz : ('z' : Char).val = 122 := rfl
  have h0 : ('0' : Char).val = 48 := rfl
  have h9 : ('9' : Char).val = 57 := rfl
  simp only [Char.isAlphanum, Char.isAlpha, Char.isDigit, Char.isUpper,
    Char.isLower, Bool.or_eq_true, Bool.and_eq_true, decide_eq_true_eq,
    beq_iff_eq, ge_iff_le, Char.le_def, hA, hZ, ha, hz, h0, h9]
  tauto

/-- The check `validateParameterName` decides exactly the claim's three
conditions. -/
theorem validateParameterName_iff (name : String) :
    validateParameterName name = true ↔ nameOk name := by
  unfold validateParameterName nameOk
  by_cases h : name = "" ∨ 64 < name.length
  · rw [if_pos h]
    simp only [Bool.false_eq_true, false_iff]
    rintro ⟨h1, h2, -⟩
    rcases h with h | h
    · exact h1 h
    · omega
  · rw [if_neg h]
    push_neg at h
    simp only [List.all_eq_true]
    constructor
    · intro hall
      exact ⟨h.1, by omega, fun c hc => (charOk_iff c).mp (hall c hc)⟩
    · rintro ⟨-, -, hall⟩
      exact fun c hc => (charOk_iff c).mpr (hall c hc)

/-- C8: every register operation returns `ERROR_INVALID_NAME` and
leaves the storage state (in particular the name-to-descriptor map)
unchanged when the name is empty, longer than 64 characters, or uses a
character outside `[A-Za-z0-9_/]`; names satisfying all three
conditions register successfully. -/
theorem c8_register_name_validation (s : StorageState) (name : String)
    (b : Bool) (iv imin imax : Int) (fv fmin fmax : Rat) (sv : String)
    (ml : Nat) (bl : List Nat) (sz : Nat) (d : String) (a : Access) :
    (¬ nameOk name →
      registerBool s name b d a = (Result.ERROR_INVALID_NAME, s) ∧
      registerInt s name iv imin imax d a = (Result.ERROR_INVALID_NAME, s) ∧
      registerFloat s name fv fmin fmax d a = (Result.ERROR_INVALID_NAME, s) ∧
      registerString s name sv ml d a = (Result.ERROR_INVALID_NAME, s) ∧
      registerBlob s name bl sz d a = (Result.ERROR_INVALID_NAME, s)) ∧
    (nameOk name →
      (registerBool s name b d a).1 = Result.SUCCESS ∧
      (registerInt s name iv imin imax d a).1 = Result.SUCCESS ∧
      (registerFloat s name fv fmin fmax d a).1 = Result.SUCCESS ∧
      (registerString s name sv ml d a).1 = Result.SUCCESS ∧
      (registerBlob s name bl sz d a).1 = Result.SUCCESS) := by
  constructor
  · intro hbad
    have hv : validateParameterName name = false := by
      cases hvn : validateParameterName name
      · rfl
      · exact absurd ((validateParameterName_iff name).mp hvn) hbad
    exact ⟨by simp [registerBool, hv], by simp [registerInt, hv],
      by simp [registerFloat, hv], by simp [registerString, hv],
      by simp [registerBlob, hv]⟩
  · intro hgood
    have hv : validateParameterName name = true :=
      (validateParameterName_iff name).mpr hgood
    exact ⟨by simp [registerBool, hv], by simp [registerInt, hv],
      by simp [registerFloat, hv], by simp [registerString, hv],
      by simp [registerBlob, hv]⟩

def c8emptyState : StorageState := ⟨false, [], []⟩

/-- Witness for C8: a name with a space is rejected by every register
operation; a well-formed hierarchical name registers successfully. -/
theorem c8_register_name_validation_witness :
    registerBool c8emptyState "bad name!" true "" Access.ACCESS_READ_WRITE =
      (Result.ERROR_INVALID_NAME, c8emptyState) ∧
    (registerFloat c8emptyState "temp/target" 22 10 30 ""
      Access.ACCESS_READ_WRITE).1 = Result.SUCCESS :=
  ⟨((c8_register_name_validation c8emptyState "bad name!" true 0 0 0 0 0 0 "" 0 [] 0
      "" Access.ACCESS_READ_WRITE).1 (by decide)).1,
   (((c8_register_name_validation c8emptyState "temp/target" true 0 0 0 22 10 30 "" 0
      [] 0 "" Access.ACCESS_READ_WRITE).2 (by decide)).2.2).1⟩

/-! ## C1 -/

/-- Lemma: `loadParameter` returns `Result::SUCCESS` on every input — also
when the persistence layer held no value for the key and the in-memory
default was kept.  This is the root cause of C1's divergence: `loadAll`
cannot distinguish loaded keys from defaulted ones. -/
theorem loadParameter_result (store : NvsStore) (p : ParameterInfo) :
    (loadParameter store p).1 = Result.SUCCESS := rfl

/-- The `loadAll` loop counts every parameter as loaded and never
downgrades `lastResult`. -/
theorem loadAllGo_count (store : NvsStore) (reg : Registry) (count : Nat)
    (last : Result) :
    (loadAllGo store reg count last).2 = (count + reg.length, last) := by
  induction reg generalizing count with
  | nil => simp [loadAllGo]
  | cons kv rest ih =>
      simp only [loadAllGo, loadParameter_result, if_pos, List.length_cons]
      rw [ih (count + 1)]
      simp only [Prod.mk.injEq, and_true]
      omega

/-- The `loadAll` loop does not change the set of registered names
(it only rewrites each descriptor in place). -/
theorem loadAllGo_not_nil (store : NvsStore) (reg : Registry) (count : Nat)
    (last : Result) (h : reg ≠ []) :
    (loadAllGo store reg count last).1 ≠ [] := by
  cases reg with
  | nil => exact absurd rfl h
  | cons kv rest => simp [loadAllGo]

/-- C1: contrary to the claim, `loadAll(autoSaveDefaults = true)` over
a non-empty registry NEVER invokes `saveAll`, even when the
persistence layer returned zero keys: `loadParameter` reports
`SUCCESS` for defaulted parameters too, so `loadedCount` always equals
the registry size and the first-boot branch is unreachable.  The NVS
store is returned exactly as it was. -/
theorem c1_first_boot_autosave_unreachable (s : StorageState)
    (h1 : s.initialized = true) (h2 : s.parameters ≠ []) :
    ((loadAll s true).2).store = s.store := by
  have hlen : s.parameters.length ≠ 0 := by
    have := List.length_pos.mpr h2
    omega
  simp only [loadAll, h1]
  have hc := loadAllGo_count s.store s.parameters 0 Result.SUCCESS
  simp only [Bool.true_eq_false, if_false, hc, Nat.zero_add]
  rw [if_neg (by simp [hlen])]

def c1param : ParameterInfo :=
  { name := "temp/target", description := "", type := PType.TYPE_FLOAT,
    access := Access.ACCESS_READ_WRITE, value := PValue.vFloat 22, size := 4,
    intMin := 0, intMax := 0, floatMin := 10, floatMax := 30, maxLen := 0,
    validator := none }

/-- A freshly initialized instance whose NVS namespace is completely
empty: the first-boot scenario of the claim. -/
def c1state : StorageState := ⟨true, [("temp/target", c1param)], []⟩

/-- Witness for C1's divergence: with an empty NVS namespace and one
registered parameter, `loadAll(true)` leaves the namespace empty — the
defaults were not persisted. -/
theorem c1_first_boot_autosave_unreachable_witness :
    ((loadAll c1state true).2).store = c1state.store :=
  c1_first_boot_autosave_unreachable c1state rfl (by simp [c1state])

end PersistentStorage
